import Mathlib

/-!
Verification development for the smartchime appliance controller.

Shallow embedding of the core components:
* `encoder.py` — the quadrature input decoder (`Encoder.transitionOccurred`)
  and the volume rotary action (`Encoder.rotaryAction`);
* `oled_manager.py` — the display state engine (`OLEDManager`): content
  operations, temporary-message overlay with its single-shot timer, dirty
  flags, and the polled `update_display` tick;
* `main.py` — sound selection (`next_sound` / `prev_sound`) and the
  initial sound-index scan in `SmartchimeSystem.__init__`.

Python machine state is modelled with explicit record passing; the
`threading.Timer` used for overlays is modelled by a timer system that
tracks live (scheduled, neither fired nor cancelled) timer identifiers;
display I/O is modelled by a list of emitted redraw events, and a fallible
collaborator is modelled by failure flags.
-/

namespace Smartchime

/-! ## Quadrature decoder (`encoder.py`, `Encoder.transitionOccurred`)

The combined 2-bit phase state `"{p1}{p2}"` of the two GPIO inputs. -/

inductive Phase
  | p00
  | p01
  | p10
  | p11
  deriving DecidableEq, Repr

/-- Rotation direction as in the source: `"L"` (left / counter-clockwise)
or `"R"` (right / clockwise). -/
inductive Dir
  | L
  | R
  deriving DecidableEq, Repr

/-- The decoder state owned by `Encoder`: `self.state` (2-bit combined
phase), `self.direction` (`None`, `"L"` or `"R"`), and `self.value`
(the running count; each emitted detent moves it by ±1 just before
`rotaryAction` is invoked). -/
structure EncState where
  state : Phase
  direction : Option Dir
  value : Int
  deriving DecidableEq, Repr

/-- `Encoder.__init__`: `self.state = '00'`, `self.direction = None`; for a
non-volume function the initial value is 0. -/
def encInit : EncState := ⟨Phase.p00, none, 0⟩

/-- `Encoder.transitionOccurred` (encoder.py lines 44–84): the 4-state
Gray-code transition table.  `newState` is the freshly read combined phase.
A detent emission is the `self.value ± 1` update performed right before the
`rotaryAction` call. -/
def transitionOccurred (s : EncState) (newState : Phase) : EncState :=
  match s.state, newState with
  | Phase.p00, Phase.p01 => { s with direction := some Dir.R, state := newState }
  | Phase.p00, Phase.p10 => { s with direction := some Dir.L, state := newState }
  | Phase.p01, Phase.p11 => { s with direction := some Dir.R, state := newState }
  | Phase.p01, Phase.p00 =>
      if s.direction = some Dir.L then
        { s with value := s.value - 1, state := newState }
      else
        { s with state := newState }
  | Phase.p10, Phase.p11 => { s with direction := some Dir.L, state := newState }
  | Phase.p10, Phase.p00 =>
      if s.direction = some Dir.R then
        { s with value := s.value + 1, state := newState }
      else
        { s with state := newState }
  | Phase.p11, Phase.p01 => { s with direction := some Dir.L, state := newState }
  | Phase.p11, Phase.p10 => { s with direction := some Dir.R, state := newState }
  | Phase.p11, Phase.p00 =>
      match s.direction with
      | some Dir.L => { s with value := s.value - 1, state := newState }
      | some Dir.R => { s with value := s.value + 1, state := newState }
      | none => { s with state := newState }
  | _, _ => { s with state := newState }

/-- Run the decoder over a sequence of freshly read combined-phase states
(one per `transitionOccurred` invocation). -/
def runEncoder (s : EncState) (seq : List Phase) : EncState :=
  seq.foldl transitionOccurred s

/-- The clockwise successor in the Gray cycle `00 → 01 → 11 → 10 → 00`. -/
def cwNext : Phase → Phase
  | Phase.p00 => Phase.p01
  | Phase.p01 => Phase.p11
  | Phase.p11 => Phase.p10
  | Phase.p10 => Phase.p00

/-- The counter-clockwise successor: `00 → 10 → 11 → 01 → 00`. -/
def ccwNext : Phase → Phase
  | Phase.p00 => Phase.p10
  | Phase.p10 => Phase.p11
  | Phase.p11 => Phase.p01
  | Phase.p01 => Phase.p00

/-- Successor in a given direction. -/
def dirNext : Dir → Phase → Phase
  | Dir.R, p => cwNext p
  | Dir.L, p => ccwNext p

/-- Sign of a detent in a given direction (`R` counts +1, `L` counts −1),
matching the `self.value ± 1` updates of the source. -/
def dirSign : Dir → Int
  | Dir.R => 1
  | Dir.L => -1

/-- A phase-edge sequence is monotone in direction `d` from phase `cur` if
every event is either the single quarter step in direction `d` or the
skip transition `11 → 00` (both phases returned simultaneously). -/
def isMonotone (d : Dir) : Phase → List Phase → Bool
  | _, [] => true
  | cur, n :: rest =>
      (n = dirNext d cur || (cur = Phase.p11 && n = Phase.p00)) && isMonotone d n rest

/-- Quarter steps advanced by a monotone sequence: a quarter step counts 1,
the skip `11 → 00` counts 2. -/
def quarters (d : Dir) : Phase → List Phase → Nat
  | _, [] => 0
  | cur, n :: rest => (if n = dirNext d cur then 1 else 2) + quarters d n rest

/-- Position index of a phase along the cycle of direction `d`, with the
rest state `00` at index 0. -/
def posIdx : Dir → Phase → Nat
  | _, Phase.p00 => 0
  | Dir.R, Phase.p01 => 1
  | Dir.R, Phase.p11 => 2
  | Dir.R, Phase.p10 => 3
  | Dir.L, Phase.p10 => 1
  | Dir.L, Phase.p11 => 2
  | Dir.L, Phase.p01 => 3

/-- Final phase of a sequence (the start phase if the sequence is empty). -/
def endPhase (p : Phase) : List Phase → Phase
  | [] => p
  | n :: rest => endPhase n rest

/-- Modelled from the spec: the net rotation implied by a phase-edge
sequence, measured in quarter steps — +1 for each clockwise-adjacent
transition, −1 for each counter-clockwise-adjacent transition.  A net
rotation of one full detent is 4 quarter steps. -/
def stepQuarter (a b : Phase) : Int :=
  if b = cwNext a then 1 else if b = ccwNext a then -1 else 0

/-- Modelled from the spec: total implied quarter-step rotation of a
sequence of adjacent phase transitions. -/
def netQuarterSteps : Phase → List Phase → Int
  | _, [] => 0
  | cur, n :: rest => stepQuarter cur n + netQuarterSteps n rest

/-! ## Display state engine (`oled_manager.py`, class `OLEDManager`)

Times (wall-clock seconds for the scroll animator, minutes for the clock)
are modelled as naturals / integers; the 2.0 s scroll settle time becomes
the constant 2.  Text measurement (`draw.textlength`) and the viewport
width (`self.device.width = 128`) are collaborator inputs. -/

/-- The dict stored in `self.temporary_message` by
`_set_temporary_message`: a snapshot of `current_mode`, `current_message`,
`line1`, `line2` at the moment the overlay timer is armed. -/
structure TempSnapshot where
  mode : String
  message : String
  line1 : String
  line2 : String
  deriving DecidableEq, Repr

/-- The mutable display state of `OLEDManager` (fields set in
`__init__`, lines 40–69).  `temp_message_thread` holds the identifier of
the `threading.Timer` armed for the current overlay, if any;
`content_drawn` / `status_drawn` model `_content_drawn` / `_status_drawn`. -/
structure OledState where
  current_mode : String
  scroll_position : Nat
  previous_scroll_position : Nat
  scroll_start_time : Option Nat
  scroll_paused : Bool
  current_message : String
  temporary_message : Option TempSnapshot
  temp_duration : Nat
  temp_message_thread : Option Nat
  last_motion_time : Option Nat
  motion_active : Bool
  motion_update_required : Bool
  line1 : String
  line2 : String
  last_minute : Int
  status_bar_update_required : Bool
  content_update_required : Bool
  content_drawn : Bool
  status_drawn : Bool
  deriving DecidableEq, Repr

/-- `OLEDManager.__init__` display/message/motion/update state. -/
def oledInit : OledState where
  current_mode := "default"
  scroll_position := 0
  previous_scroll_position := 0
  scroll_start_time := none
  scroll_paused := true
  current_message := ""
  temporary_message := none
  temp_duration := 0
  temp_message_thread := none
  last_motion_time := none
  motion_active := false
  motion_update_required := true
  line1 := ""
  line2 := ""
  last_minute := -1
  status_bar_update_required := true
  content_update_required := true
  content_drawn := false
  status_drawn := false

/-- The timer collaborator (`threading.Timer`): `nextId` generates fresh
timer identifiers; `live` is the set of timers that are scheduled and have
neither fired nor been cancelled.  `Timer.cancel` on a live timer removes
it from `live`; a timer that is not live can never fire. -/
structure TimerSys where
  nextId : Nat
  live : List Nat
  deriving DecidableEq, Repr

/-- Initially no timers exist. -/
def timerInit : TimerSys := ⟨0, []⟩

/-- Engine + timer collaborator. -/
abbrev Sys := OledState × TimerSys

/-- Initial system. -/
def sysInit : Sys := (oledInit, timerInit)

/-- `_cancel_temporary_message` (lines 182–187): if the armed timer is
still alive, cancel it; in every case drop the overlay record. -/
def cancelTemporaryMessage (σ : Sys) : Sys :=
  let s := σ.1
  let ts := σ.2
  let ts' :=
    match s.temp_message_thread with
    | some id => if id ∈ ts.live then { ts with live := ts.live.erase id } else ts
    | none => ts
  ({ s with temporary_message := none }, ts')

/-- `_set_temporary_message` (lines 161–180): cancel any pending overlay
timer, snapshot the *current* state (the caller has already applied the
overlay content at this point), then arm a fresh single-shot timer. -/
def setTemporaryMessage (duration : Nat) (σ : Sys) : Sys :=
  let σ := cancelTemporaryMessage σ
  let s := σ.1
  let ts := σ.2
  let snap : TempSnapshot := ⟨s.current_mode, s.current_message, s.line1, s.line2⟩
  let s := { s with temporary_message := some snap, temp_duration := duration }
  let id := ts.nextId
  ({ s with temp_message_thread := some id },
   { nextId := ts.nextId + 1, live := id :: ts.live })

/-- `_restore_previous_state` (lines 189–199): the timer callback; if an
overlay record exists, copy its snapshot back and mark content dirty. -/
def restorePreviousState (s : OledState) : OledState :=
  match s.temporary_message with
  | some snap =>
      { s with current_mode := snap.mode, current_message := snap.message,
               line1 := snap.line1, line2 := snap.line2,
               content_drawn := false, content_update_required := true,
               temporary_message := none }
  | none => s

/-- Firing of timer `id`: only a live timer can fire; firing consumes it
and runs `_restore_previous_state`. -/
def fireTimer (id : Nat) (σ : Sys) : Sys :=
  if id ∈ σ.2.live then
    (restorePreviousState σ.1, { σ.2 with live := σ.2.live.erase id })
  else σ

/-- `show_centered_text` (lines 96–111): set centered-mode content, mark
content dirty; `if duration:` arm the overlay (0 is falsy in Python, so a
zero duration arms nothing). -/
def showCenteredText (l1 l2 : String) (duration : Option Nat) (σ : Sys) : Sys :=
  let s := { σ.1 with current_mode := "centered", line1 := l1, line2 := l2,
                      content_drawn := false, content_update_required := true }
  match duration with
  | some d => if d ≠ 0 then setTemporaryMessage d (s, σ.2) else (s, σ.2)
  | none => (s, σ.2)

/-- `show_scrolling_text` (lines 113–129): unconditionally switch to
scrolling mode, replace the message, reset the scroll state, mark content
dirty; `if duration:` arm the overlay. -/
def showScrollingText (text : String) (duration : Option Nat) (σ : Sys) : Sys :=
  let s := { σ.1 with current_mode := "scrolling", current_message := text,
                      scroll_position := 0, scroll_start_time := none,
                      scroll_paused := true,
                      content_drawn := false, content_update_required := true }
  match duration with
  | some d => if d ≠ 0 then setTemporaryMessage d (s, σ.2) else (s, σ.2)
  | none => (s, σ.2)

/-- `show_status` (lines 131–146): each non-`None` argument is stored and
marks the status region for redraw — there is no comparison against the
cached value. -/
def showStatus (motion_active : Option Bool) (motion_time : Option Nat)
    (s : OledState) : OledState :=
  let s :=
    match motion_active with
    | some b => { s with motion_active := b, motion_update_required := true,
                         status_drawn := false }
    | none => s
  match motion_time with
  | some t => { s with last_motion_time := some t, motion_update_required := true,
                       status_drawn := false }
  | none => s

/-- `clear_display` (lines 148–159): reset content, mark both regions
dirty, cancel any temporary message. -/
def clearDisplay (σ : Sys) : Sys :=
  let s := { σ.1 with current_mode := "default", current_message := "",
                      line1 := "", line2 := "",
                      content_drawn := false, status_drawn := false,
                      content_update_required := true,
                      status_bar_update_required := true }
  cancelTemporaryMessage (s, σ.2)

/-- The device viewport width (`self.device.width`). -/
def deviceWidth : Nat := 128

/-- The state-mutating part of `_update_content_area` (lines 283–327).
Drawing calls are elided; only the scrolling-mode branch mutates state
(`scroll_start_time`, `scroll_paused`, `scroll_position`,
`previous_scroll_position`, `content_update_required`).  `tw` is the
collaborator's text measurement, `now` the current wall-clock time.  The
source first fills in `scroll_start_time` when it is `None` and then uses
it; here `t0` is that filled-in value. -/
def updateContentArea (tw : String → Nat) (now : Nat) (s : OledState) : OledState :=
  if s.current_mode = "scrolling" ∧ s.current_message ≠ "" then
    let msgWidth := tw s.current_message
    if msgWidth > deviceWidth then
      let t0 := s.scroll_start_time.getD now
      let s := { s with scroll_start_time := some t0 }
      if now - t0 < 2 then s
      else if s.scroll_paused ∧ now - t0 ≥ 2 then
        { s with scroll_paused := false, scroll_position := 0 }
      else if s.scroll_position ≥ msgWidth ∧ ¬ s.scroll_paused then
        { s with scroll_paused := true, scroll_start_time := some now }
      else if ¬ s.scroll_paused then
        let s :=
          if s.previous_scroll_position ≠ s.scroll_position then
            { s with content_update_required := true }
          else s
        { s with previous_scroll_position := s.scroll_position,
                 scroll_position := s.scroll_position + 1 }
      else s
    else s
  else s

/-- A redraw I/O transaction against the display collaborator: one
`with canvas(self.device)` block for a region. -/
inductive Redraw
  | status
  | content
  deriving DecidableEq, Repr

/-- `update_display`, clock block (lines 332–338): mark the status bar for
redraw once per wall-clock minute. -/
def tickMinute (minute : Int) (s : OledState) : OledState :=
  if minute ≠ s.last_minute then
    { s with status_bar_update_required := true, last_minute := minute }
  else s

/-- `update_display`, content-flag block (lines 340–349): initial draw of
freshly set content, and the unconditional every-tick content update in
scrolling mode. -/
def tickContentFlags (s : OledState) : OledState :=
  if (s.current_mode = "centered" ∨ s.current_mode = "scrolling") ∧ ¬ s.content_drawn then
    { s with content_update_required := true, content_drawn := true }
  else if s.current_mode = "scrolling" then
    { s with content_update_required := true }
  else s

/-- `update_display`, status-flag block (lines 351–354): make sure the
status bar is drawn initially. -/
def tickStatusFlag (s : OledState) : OledState :=
  if ¬ s.status_drawn then
    { s with status_bar_update_required := true, status_drawn := true }
  else s

/-- `update_display`, status-bar redraw block (lines 356–374): one canvas
I/O transaction; on success both status flags are cleared, on an I/O
exception they are left set and `_status_drawn` is reset. -/
def tickStatusRedraw (statusFail : Bool) (s : OledState) : OledState × List Redraw :=
  if s.status_bar_update_required ∨ s.motion_update_required then
    if statusFail then ({ s with status_drawn := false }, [Redraw.status])
    else ({ s with status_bar_update_required := false,
                   motion_update_required := false }, [Redraw.status])
  else (s, [])

/-- `update_display`, content redraw block (lines 376–390): one canvas
I/O transaction running `_update_content_area`; on success the content
flag is cleared, on an I/O exception it is left set and `_content_drawn`
is reset. -/
def tickContentRedraw (tw : String → Nat) (now : Nat) (contentFail : Bool)
    (s : OledState) : OledState × List Redraw :=
  if s.content_update_required then
    if contentFail then ({ s with content_drawn := false }, [Redraw.content])
    else
      let s := updateContentArea tw now s
      ({ s with content_update_required := false }, [Redraw.content])
  else (s, [])

/-- `update_display` (lines 329–391), the engine tick.  `minute` is the
current wall-clock minute, `now` the current time for the scroll animator;
`statusFail` / `contentFail` make the corresponding canvas I/O raise.
Returns the new state and the list of redraw I/O transactions attempted
this tick. -/
def updateDisplay (tw : String → Nat) (minute : Int) (now : Nat)
    (statusFail contentFail : Bool) (s : OledState) : OledState × List Redraw :=
  let s := tickStatusFlag (tickContentFlags (tickMinute minute s))
  let step1 := tickStatusRedraw statusFail s
  let step2 := tickContentRedraw tw now contentFail step1.1
  (step2.1, step1.2 ++ step2.2)

/-- The externally triggered operations that mutate the engine/timer
system: the content-setting calls, the status update, the clear, the
expiry of a timer, and the polled tick. -/
inductive Op
  | showCentered (l1 l2 : String) (dur : Option Nat)
  | showScrolling (text : String) (dur : Option Nat)
  | status (a : Option Bool) (t : Option Nat)
  | clear
  | fire (id : Nat)
  | tick (tw : String → Nat) (minute : Int) (now : Nat) (sf cf : Bool)

/-- Apply one operation to the system. -/
def stepOp (op : Op) (σ : Sys) : Sys :=
  match op with
  | Op.showCentered l1 l2 d => showCenteredText l1 l2 d σ
  | Op.showScrolling t d => showScrollingText t d σ
  | Op.status a t => (showStatus a t σ.1, σ.2)
  | Op.clear => clearDisplay σ
  | Op.fire id => fireTimer id σ
  | Op.tick tw m now sf cf => ((updateDisplay tw m now sf cf σ.1).1, σ.2)

/-- Run a sequence of operations from a starting system state. -/
def runOps (ops : List Op) (σ : Sys) : Sys :=
  ops.foldl (fun σ op => stepOp op σ) σ

/-! ## Sound selection (`main.py`, `SmartchimeSystem`)

`current_sound_index` is `Option Int`: `None` until the initialization
scan finds the configured default sound.  The time-based
`_check_control_throttle` result is passed in as a boolean.  Python raises
`TypeError` on `None + 1`; fallible operations return `Except Unit`. -/

/-- Sound-selection state of `SmartchimeSystem`. -/
structure SoundState where
  available_sounds : List String
  current_sound_index : Option Int
  deriving DecidableEq, Repr

/-- The index scan in `SmartchimeSystem.__init__` (lines 181–188):
`current_sound_index = None`; then for each position `i`, if
`available_sounds[i]` equals the configured default sound, the index is
overwritten with `i` (so the last match wins; no match leaves `None`). -/
def initIndexScan (default_sound : String) : List String → Int → Option Int → Option Int
  | [], _, acc => acc
  | x :: xs, i, acc =>
      initIndexScan default_sound xs (i + 1) (if x = default_sound then some i else acc)

/-- `current_sound_index` after `__init__` for a given sound list and
configured default sound. -/
def initSoundIndex (sounds : List String) (default_sound : String) : Option Int :=
  initIndexScan default_sound sounds 0 none

/-- `next_sound` (main.py lines 282–296): return unchanged when throttled
or when the sound list is empty; otherwise
`current_sound_index = (current_sound_index + 1) % len(available_sounds)`,
which raises `TypeError` when the index is `None`. -/
def nextSound (throttled : Bool) (s : SoundState) : Except Unit SoundState :=
  if throttled then Except.ok s
  else if s.available_sounds = [] then Except.ok s
  else
    match s.current_sound_index with
    | none => Except.error ()
    | some i =>
        let j : Int := (i + 1) % (s.available_sounds.length : Int)
        Except.ok { s with current_sound_index := some j }

/-- `prev_sound` (main.py lines 298–312): as `next_sound` but with
`(current_sound_index - 1) % len(available_sounds)` (Python `%` on a
positive modulus is `Int.emod`). -/
def prevSound (throttled : Bool) (s : SoundState) : Except Unit SoundState :=
  if throttled then Except.ok s
  else if s.available_sounds = [] then Except.ok s
  else
    match s.current_sound_index with
    | none => Except.error ()
    | some i =>
        let j : Int := (i - 1) % (s.available_sounds.length : Int)
        Except.ok { s with current_sound_index := some j }

/-! ## Volume rotary action (`encoder.py`, `Encoder.rotaryAction`) -/

/-- The volume branch of `Encoder.rotaryAction` (lines 99–113) for
`rotaryFunction == "volume"`: when the mixer is not muted, the stored
value is clamped into `[0, 100]` and `mixer.setvolume` is called with the
clamped value; when muted, no mixer call is made and the value is kept
as-is.  Returns the new stored value and the `setvolume` argument, if
any. -/
def rotaryActionVolume (muted : Bool) (value : Int) : Int × Option Int :=
  if muted = false then
    let v := if value < 0 then 0 else if value > 100 then 100 else value
    (v, some v)
  else (value, none)

/-- One completed detent of the volume encoder
(`transitionOccurred` emission): `self.value ± 1` followed by
`rotaryAction("volume", self.value)`, with the mixer's mute state read at
that moment. -/
def volumeDetent (muted : Bool) (d : Dir) (value : Int) : Int × Option Int :=
  rotaryActionVolume muted (value + dirSign d)

/-- A sequence of volume detents: fold the per-detent action, collecting
every `setvolume` call made to the mixer. -/
def runVolumeDetents (events : List (Bool × Dir)) (value : Int) : Int × List Int :=
  match events with
  | [] => (value, [])
  | (muted, d) :: rest =>
      let r := volumeDetent muted d value
      let tail := runVolumeDetents rest r.1
      (tail.1,
        match r.2 with
        | some c => c :: tail.2
        | none => tail.2)

/-! ## Helper lemmas -/

/-- Subtracting 1 modulo `n` undoes adding 1 modulo `n` on a valid index. -/
lemma emod_add_one_sub_one (n i : Int) (h0 : 0 ≤ i) (hlt : i < n) :
    ((i + 1) % n - 1) % n = i := by
  have h1 : ((i + 1) % n - 1) % n = (i + 1 - 1) % n := by
    conv_lhs => rw [Int.sub_emod]
    conv_rhs => rw [Int.sub_emod]
    rw [Int.emod_emod_of_dvd _ dvd_rfl]
  have h2 : i + 1 - 1 = i := by ring
  rw [h1, h2, Int.emod_eq_of_lt h0 hlt]

/-- The `__init__` index scan returns its accumulator when the default
sound occurs nowhere in the list. -/
lemma initIndexScan_of_not_mem (ds : String) :
    ∀ (xs : List String) (i : Int) (acc : Option Int), ds ∉ xs →
      initIndexScan ds xs i acc = acc := by
  intro xs
  induction xs with
  | nil => intro i acc _; rfl
  | cons x xs ih =>
      intro i acc h
      simp only [List.mem_cons, not_or] at h
      rw [initIndexScan, if_neg (Ne.symm h.1)]
      exact ih _ _ h.2

/-- A muted detent applies no mixer call and keeps the moved value. -/
lemma volumeDetent_true (d : Dir) (v : Int) :
    volumeDetent true d v = (v + dirSign d, none) := by
  simp [volumeDetent, rotaryActionVolume]

/-- An unmuted detent stores the clamped moved value and calls
`setvolume` with it. -/
lemma volumeDetent_false (d : Dir) (v : Int) :
    volumeDetent false d v
      = (if v + dirSign d < 0 then 0 else if v + dirSign d > 100 then 100 else v + dirSign d,
         some (if v + dirSign d < 0 then 0 else if v + dirSign d > 100 then 100 else v + dirSign d)) := by
  simp [volumeDetent, rotaryActionVolume]

/-! ## Claims -/

/-- C8: select-next and select-previous are symmetric ±1 modulo the list
length, and an unthrottled `next_sound` followed by an unthrottled
`prev_sound` restores the original index. -/
theorem C8_next_prev_symmetric (sounds : List String) (i : Int)
    (hne : sounds ≠ []) (h0 : 0 ≤ i) (hlt : i < (sounds.length : Int)) :
    nextSound false ⟨sounds, some i⟩
        = Except.ok ⟨sounds, some ((i + 1) % (sounds.length : Int))⟩
    ∧ prevSound false ⟨sounds, some i⟩
        = Except.ok ⟨sounds, some ((i - 1) % (sounds.length : Int))⟩
    ∧ (nextSound false ⟨sounds, some i⟩).bind (prevSound false)
        = Except.ok ⟨sounds, some i⟩ := by
  refine ⟨by simp [nextSound, hne], by simp [prevSound, hne], ?_⟩
  simp only [nextSound, prevSound, if_neg (Bool.false_ne_true ∘ congrArg id),
    Bool.false_eq_true, if_false, if_neg hne, Except.bind]
  simp [hne, emod_add_one_sub_one _ i h0 hlt]

/-- C8 witness: a concrete two-element sound list at index 0. -/
theorem C8_next_prev_symmetric_witness :
    nextSound false ⟨["a", "b"], some 0⟩
        = Except.ok ⟨["a", "b"], some ((0 + 1) % (((["a", "b"] : List String).length : Nat) : Int))⟩
    ∧ prevSound false ⟨["a", "b"], some 0⟩
        = Except.ok ⟨["a", "b"], some ((0 - 1) % (((["a", "b"] : List String).length : Nat) : Int))⟩
    ∧ (nextSound false ⟨["a", "b"], some 0⟩).bind (prevSound false)
        = Except.ok ⟨["a", "b"], some 0⟩ :=
  C8_next_prev_symmetric ["a", "b"] 0 (by decide) (by decide) (by decide)

/-- C9: when the sound list is non-empty but the configured default sound
is not in it, initialization leaves the index unset, and the first
unthrottled next/previous call fails with a type error instead of
selecting a sound (the guard only checks for an empty list). -/
theorem C9_unset_index_type_error (sounds : List String) (ds : String)
    (hne : sounds ≠ []) (hni : ds ∉ sounds) :
    initSoundIndex sounds ds = none
    ∧ nextSound false ⟨sounds, none⟩ = Except.error ()
    ∧ prevSound false ⟨sounds, none⟩ = Except.error () := by
  refine ⟨?_, by simp [nextSound, hne], by simp [prevSound, hne]⟩
  rw [initSoundIndex]
  exact initIndexScan_of_not_mem ds sounds 0 none hni

/-- C9 witness: a one-element sound list not containing the default. -/
theorem C9_unset_index_type_error_witness :
    initSoundIndex ["a"] "b" = none
    ∧ nextSound false ⟨["a"], none⟩ = Except.error ()
    ∧ prevSound false ⟨["a"], none⟩ = Except.error () :=
  C9_unset_index_type_error ["a"] "b" (by decide) (by decide)

/-- C10: over any sequence of volume detents, every `setvolume` call made
to the mixer carries a value in `[0, 100]`, and if the mixer is muted for
every detent then no `setvolume` call is made at all. -/
theorem C10_volume_calls_clamped (events : List (Bool × Dir)) (v0 : Int) :
    (∀ c ∈ (runVolumeDetents events v0).2, 0 ≤ c ∧ c ≤ 100)
    ∧ ((∀ e ∈ events, e.1 = true) → (runVolumeDetents events v0).2 = []) := by
  induction events generalizing v0 with
  | nil => exact ⟨by simp [runVolumeDetents], fun _ => rfl⟩
  | cons e rest ih =>
      obtain ⟨muted, d⟩ := e
      cases muted with
      | true =>
          have hstep : (runVolumeDetents ((true, d) :: rest) v0).2
              = (runVolumeDetents rest (v0 + dirSign d)).2 := by
            rw [runVolumeDetents, volumeDetent_true]
          constructor
          · intro c hc
            rw [hstep] at hc
            exact (ih _).1 c hc
          · intro hall
            rw [hstep]
            exact (ih _).2 fun e he => hall e (List.mem_cons_of_mem _ he)
      | false =>
          have hstep : (runVolumeDetents ((false, d) :: rest) v0).2
              = (if v0 + dirSign d < 0 then 0
                 else if v0 + dirSign d > 100 then 100 else v0 + dirSign d)
                :: (runVolumeDetents rest
                      (if v0 + dirSign d < 0 then 0
                       else if v0 + dirSign d > 100 then 100 else v0 + dirSign d)).2 := by
            rw [runVolumeDetents, volumeDetent_false]
          constructor
          · intro c hc
            rw [hstep] at hc
            rcases List.mem_cons.mp hc with hc | hc
            · subst hc
              constructor <;> split_ifs <;> omega
            · exact (ih _).1 c hc
          · intro hall
            have hx := hall (false, d) (List.mem_cons_self _ _)
            simp at hx

/-- C10 witness: one unmuted clockwise detent from a stored value far out
of range. -/
theorem C10_volume_calls_clamped_witness :
    (∀ c ∈ (runVolumeDetents [(false, Dir.R)] 200).2, 0 ≤ c ∧ c ≤ 100)
    ∧ ((∀ e ∈ ([(false, Dir.R)] : List (Bool × Dir)), e.1 = true) →
        (runVolumeDetents [(false, Dir.R)] 200).2 = []) :=
  C10_volume_calls_clamped [(false, Dir.R)] 200

/-- A state displaying persistent content: scrolling-mode message `"P"`. -/
def c1Start : Sys := showScrollingText "P" none sysInit

/-- C1: overlay expiry does not bring back the pre-overlay content.  The
snapshot in `_set_temporary_message` is taken *after* the caller has
already applied the overlay content, so the stored "previous state" is the
overlay itself (`mode = "centered"`, `line1 = "X"`), and when the timer
fires the display still shows the overlay, not the prior scrolling
message `"P"`. -/
theorem C1_restore_keeps_overlay :
    c1Start.1.current_mode = "scrolling" ∧ c1Start.1.current_message = "P"
    ∧ (showCenteredText "X" "" (some 5) c1Start).2.live = [0]
    ∧ (showCenteredText "X" "" (some 5) c1Start).1.temporary_message
        = some ⟨"centered", "P", "X", ""⟩
    ∧ (fireTimer 0 (showCenteredText "X" "" (some 5) c1Start)).1.current_mode = "centered"
    ∧ (fireTimer 0 (showCenteredText "X" "" (some 5) c1Start)).1.line1 = "X" := by
  decide

/-- A status cache with motion active at time 5, nothing pending redraw. -/
def c5State : OledState :=
  { oledInit with motion_active := true, last_motion_time := some 5,
                  motion_update_required := false, status_drawn := true,
                  status_bar_update_required := false }

/-- C5 counterexample: `show_status` with arguments equal to the cached
values still marks the status region dirty — there is no
change-detection in the source. -/
theorem C5_counterexample :
    c5State.motion_active = true ∧ c5State.last_motion_time = some 5
    ∧ c5State.motion_update_required = false
    ∧ (showStatus (some true) (some 5) c5State).motion_update_required = true
    ∧ (showStatus (some true) (some 5) c5State).status_drawn = false := by
  decide

/-- C5 amended: `show_status` marks the status region dirty on every call
that passes at least one non-`None` argument, whether or not the value
changed; a call with both arguments `None` leaves the state unchanged. -/
theorem C5_dirty_on_every_assignment (s : OledState) (a : Option Bool) (t : Option Nat)
    (h : a ≠ none ∨ t ≠ none) :
    (showStatus a t s).motion_update_required = true
    ∧ showStatus none none s = s := by
  refine ⟨?_, rfl⟩
  cases a with
  | some b => cases t <;> simp [showStatus]
  | none =>
      cases t with
      | some v => simp [showStatus]
      | none => simp at h

/-- C5 witness: a repeated motion-active assignment. -/
theorem C5_dirty_on_every_assignment_witness :
    (showStatus (some true) (some 5) c5State).motion_update_required = true
    ∧ showStatus none none c5State = c5State :=
  C5_dirty_on_every_assignment c5State (some true) (some 5) (by decide)

/-- A display state in centered (non-Default) mode with clean content. -/
def c6State : OledState :=
  { oledInit with current_mode := "centered", line1 := "A", line2 := "B",
                  content_update_required := false, content_drawn := true }

/-- C6 counterexample: `show_scrolling_text` called while the mode is
`"centered"` is not a no-op — it switches the mode, replaces the message
and marks content dirty; the source has no mode guard. -/
theorem C6_counterexample :
    c6State.current_mode = "centered"
    ∧ c6State.content_update_required = false
    ∧ (showScrollingText "hello" none (c6State, timerInit)).1.current_mode = "scrolling"
    ∧ (showScrollingText "hello" none (c6State, timerInit)).1.current_message = "hello"
    ∧ (showScrollingText "hello" none (c6State, timerInit)).1.content_update_required = true := by
  decide

/-- C6 amended: from every prior state (whatever the active mode),
`show_scrolling_text` switches the mode to scrolling, replaces the
persistent message, resets the scroll phase and marks content dirty. -/
theorem C6_unconditional_replace (σ : Sys) (text : String) :
    (showScrollingText text none σ).1.current_mode = "scrolling"
    ∧ (showScrollingText text none σ).1.current_message = text
    ∧ (showScrollingText text none σ).1.scroll_position = 0
    ∧ (showScrollingText text none σ).1.scroll_start_time = none
    ∧ (showScrollingText text none σ).1.scroll_paused = true
    ∧ (showScrollingText text none σ).1.content_update_required = true
    ∧ (showScrollingText text none σ).2 = σ.2 :=
  ⟨rfl, rfl, rfl, rfl, rfl, rfl, rfl⟩

/-- A fixed-width text measurement: every string is 20 px wide. -/
def c4tw : String → Nat := fun _ => 20

/-- A scrolling-mode state whose message fits the viewport. -/
def c4s0 : OledState :=
  { oledInit with current_mode := "scrolling", current_message := "hi" }

/-- C4 counterexample: in scrolling mode the tick re-marks content dirty
unconditionally, so the second of two back-to-back ticks (same minute, no
intervening operation, dirty flags all clear after the first tick) still
performs a content redraw I/O call. -/
theorem C4_counterexample :
    (updateDisplay c4tw 0 0 false false c4s0).1.status_bar_update_required = false
    ∧ (updateDisplay c4tw 0 0 false false c4s0).1.content_update_required = false
    ∧ (updateDisplay c4tw 0 0 false false c4s0).1.motion_update_required = false
    ∧ (updateDisplay c4tw 0 1 false false (updateDisplay c4tw 0 0 false false c4s0).1).2
        = [Redraw.content] := by
  decide

/-- The scroll animator leaves the state untouched outside scrolling
mode. -/
lemma updateContentArea_of_mode_ne (tw : String → Nat) (now : Nat) (s : OledState)
    (h : s.current_mode ≠ "scrolling") : updateContentArea tw now s = s := by
  rw [updateContentArea, if_neg]
  intro hc
  exact h hc.1

/-- `_update_content_area` only touches scroll fields and the content
dirty flag: the mode, dirty/drawn status fields and clock survive. -/
lemma updateContentArea_pres (tw : String → Nat) (now : Nat) (s : OledState) :
    (updateContentArea tw now s).current_mode = s.current_mode
    ∧ (updateContentArea tw now s).status_bar_update_required = s.status_bar_update_required
    ∧ (updateContentArea tw now s).motion_update_required = s.motion_update_required
    ∧ (updateContentArea tw now s).status_drawn = s.status_drawn
    ∧ (updateContentArea tw now s).content_drawn = s.content_drawn
    ∧ (updateContentArea tw now s).last_minute = s.last_minute := by
  simp only [updateContentArea]
  split_ifs <;> exact ⟨rfl, rfl, rfl, rfl, rfl, rfl⟩

/-- The clock block stamps the current minute and touches nothing but the
status dirty flag. -/
lemma tickMinute_fields (m : Int) (s : OledState) :
    (tickMinute m s).last_minute = m
    ∧ (tickMinute m s).current_mode = s.current_mode
    ∧ (tickMinute m s).content_update_required = s.content_update_required
    ∧ (tickMinute m s).content_drawn = s.content_drawn
    ∧ (tickMinute m s).status_drawn = s.status_drawn
    ∧ (tickMinute m s).motion_update_required = s.motion_update_required := by
  rw [tickMinute]
  split_ifs with h
  · exact ⟨rfl, rfl, rfl, rfl, rfl, rfl⟩
  · exact ⟨(not_ne_iff.mp h).symm, rfl, rfl, rfl, rfl, rfl⟩

/-- The clock block never clears a pending status redraw. -/
lemma tickMinute_sbr (m : Int) (s : OledState)
    (h : s.status_bar_update_required = true) :
    (tickMinute m s).status_bar_update_required = true := by
  rw [tickMinute]
  split_ifs <;> simp [h]

/-- The content-flag block can only set the content dirty flag, and
leaves the status fields, mode and clock alone. -/
lemma tickContentFlags_pres (s : OledState) :
    (tickContentFlags s).current_mode = s.current_mode
    ∧ (tickContentFlags s).status_bar_update_required = s.status_bar_update_required
    ∧ (tickContentFlags s).motion_update_required = s.motion_update_required
    ∧ (tickContentFlags s).status_drawn = s.status_drawn
    ∧ (tickContentFlags s).last_minute = s.last_minute := by
  rw [tickContentFlags]
  split_ifs <;> exact ⟨rfl, rfl, rfl, rfl, rfl⟩

/-- The content-flag block never clears a pending content redraw. -/
lemma tickContentFlags_cur (s : OledState)
    (h : s.content_update_required = true) :
    (tickContentFlags s).content_update_required = true := by
  rw [tickContentFlags]
  split_ifs <;> simp [h]

/-- Outside scrolling mode, after the content-flag block a centered mode
always has its content drawn, and the content dirty flag is unchanged
unless that initial draw was needed. -/
lemma tickContentFlags_centered (s : OledState) (h : s.current_mode ≠ "scrolling") :
    (tickContentFlags s).current_mode = s.current_mode
    ∧ ((tickContentFlags s).current_mode = "centered" →
        (tickContentFlags s).content_drawn = true) := by
  by_cases hc : s.current_mode = "centered" <;> by_cases hd : s.content_drawn <;>
    simp [tickContentFlags, hc, hd, h]

/-- Outside scrolling mode, a quiescent state passes the content-flag
block unchanged. -/
lemma tickContentFlags_quiescent (s : OledState) (h : s.current_mode ≠ "scrolling")
    (hdrawn : s.current_mode = "centered" → s.content_drawn = true) :
    tickContentFlags s = s := by
  by_cases hc : s.current_mode = "centered"
  · simp [tickContentFlags, hc, h, hdrawn hc]
  · simp [tickContentFlags, hc, h]

/-- The status-flag block establishes `_status_drawn` and touches nothing
else but the status dirty flag. -/
lemma tickStatusFlag_fields (s : OledState) :
    (tickStatusFlag s).status_drawn = true
    ∧ (tickStatusFlag s).current_mode = s.current_mode
    ∧ (tickStatusFlag s).content_update_required = s.content_update_required
    ∧ (tickStatusFlag s).content_drawn = s.content_drawn
    ∧ (tickStatusFlag s).motion_update_required = s.motion_update_required
    ∧ (tickStatusFlag s).last_minute = s.last_minute := by
  cases h : s.status_drawn <;> simp [tickStatusFlag, h]

/-- The status-flag block never clears a pending status redraw. -/
lemma tickStatusFlag_sbr (s : OledState)
    (h : s.status_bar_update_required = true) :
    (tickStatusFlag s).status_bar_update_required = true := by
  rw [tickStatusFlag]
  split_ifs <;> simp [h]

/-- A successful status redraw clears both status flags and touches no
other field. -/
lemma tickStatusRedraw_ok (s : OledState) :
    (tickStatusRedraw false s).1.status_bar_update_required = false
    ∧ (tickStatusRedraw false s).1.motion_update_required = false
    ∧ (tickStatusRedraw false s).1.current_mode = s.current_mode
    ∧ (tickStatusRedraw false s).1.content_update_required = s.content_update_required
    ∧ (tickStatusRedraw false s).1.content_drawn = s.content_drawn
    ∧ (tickStatusRedraw false s).1.status_drawn = s.status_drawn
    ∧ (tickStatusRedraw false s).1.last_minute = s.last_minute := by
  cases hs : s.status_bar_update_required <;> cases hm : s.motion_update_required <;>
    simp [tickStatusRedraw, hs, hm]

/-- A failed status redraw leaves the dirty flags set, resets the drawn
marker, and emits the attempted transaction. -/
lemma tickStatusRedraw_fail (s : OledState) (h : s.status_bar_update_required = true) :
    tickStatusRedraw true s = ({ s with status_drawn := false }, [Redraw.status]) := by
  simp [tickStatusRedraw, h]

/-- The status redraw attempts exactly one status transaction when a
status flag is set, regardless of I/O success. -/
lemma tickStatusRedraw_events (sf : Bool) (s : OledState)
    (h : s.status_bar_update_required = true) :
    (tickStatusRedraw sf s).2 = [Redraw.status] := by
  cases sf <;> simp [tickStatusRedraw, h]

/-- The status redraw never touches the content dirty flag. -/
lemma tickStatusRedraw_cur (sf : Bool) (s : OledState) :
    (tickStatusRedraw sf s).1.content_update_required = s.content_update_required := by
  cases sf <;> cases hs : s.status_bar_update_required <;>
    cases hm : s.motion_update_required <;> simp [tickStatusRedraw, hs, hm]

/-- A successful content redraw clears the content dirty flag; the status
fields survive `_update_content_area`. -/
lemma tickContentRedraw_ok (tw : String → Nat) (now : Nat) (s : OledState) :
    (tickContentRedraw tw now false s).1.content_update_required = false
    ∧ (tickContentRedraw tw now false s).1.status_bar_update_required
        = s.status_bar_update_required
    ∧ (tickContentRedraw tw now false s).1.motion_update_required
        = s.motion_update_required
    ∧ (tickContentRedraw tw now false s).1.status_drawn = s.status_drawn
    ∧ (tickContentRedraw tw now false s).1.last_minute = s.last_minute
    ∧ (tickContentRedraw tw now false s).1.content_drawn = s.content_drawn := by
  have hp := updateContentArea_pres tw now s
  cases hc : s.content_update_required <;>
    simp [tickContentRedraw, hc, hp.2.1, hp.2.2.1, hp.2.2.2.1,
      hp.2.2.2.2.1, hp.2.2.2.2.2]

/-- The content redraw never changes the mode, for either I/O outcome. -/
lemma tickContentRedraw_mode (tw : String → Nat) (now : Nat) (cf : Bool) (s : OledState) :
    (tickContentRedraw tw now cf s).1.current_mode = s.current_mode := by
  have hp := updateContentArea_pres tw now s
  cases cf <;> cases hc : s.content_update_required <;>
    simp [tickContentRedraw, hc, hp.1]

/-- The content redraw never touches the status dirty flag, for either
I/O outcome. -/
lemma tickContentRedraw_sbr (tw : String → Nat) (now : Nat) (cf : Bool) (s : OledState) :
    (tickContentRedraw tw now cf s).1.status_bar_update_required
      = s.status_bar_update_required := by
  have hp := updateContentArea_pres tw now s
  cases cf <;> cases hc : s.content_update_required <;>
    simp [tickContentRedraw, hc, hp.2.1]

/-- A failed content redraw leaves the dirty flag set, resets the drawn
marker, and emits the attempted transaction. -/
lemma tickContentRedraw_fail (tw : String → Nat) (now : Nat) (s : OledState)
    (h : s.content_update_required = true) :
    tickContentRedraw tw now true s = ({ s with content_drawn := false }, [Redraw.content]) := by
  simp [tickContentRedraw, h]

/-- The content redraw attempts exactly one content transaction when the
content flag is set, regardless of I/O success. -/
lemma tickContentRedraw_events (tw : String → Nat) (now : Nat) (cf : Bool) (s : OledState)
    (h : s.content_update_required = true) :
    (tickContentRedraw tw now cf s).2 = [Redraw.content] := by
  cases cf <;> simp [tickContentRedraw, h]

/-- The tick is the composition of the five blocks. -/
lemma updateDisplay_eq (tw : String → Nat) (m : Int) (now : Nat)
    (sf cf : Bool) (s : OledState) :
    updateDisplay tw m now sf cf s
      = ((tickContentRedraw tw now cf
            (tickStatusRedraw sf (tickStatusFlag (tickContentFlags (tickMinute m s)))).1).1,
         (tickStatusRedraw sf (tickStatusFlag (tickContentFlags (tickMinute m s)))).2
           ++ (tickContentRedraw tw now cf
                 (tickStatusRedraw sf (tickStatusFlag (tickContentFlags (tickMinute m s)))).1).2) :=
  rfl

/-- State component of the tick as a block composition. -/
lemma updateDisplay_fst (tw : String → Nat) (m : Int) (now : Nat)
    (sf cf : Bool) (s : OledState) :
    (updateDisplay tw m now sf cf s).1
      = (tickContentRedraw tw now cf
          (tickStatusRedraw sf (tickStatusFlag (tickContentFlags (tickMinute m s)))).1).1 :=
  rfl

/-- Event component of the tick as a block composition. -/
lemma updateDisplay_snd (tw : String → Nat) (m : Int) (now : Nat)
    (sf cf : Bool) (s : OledState) :
    (updateDisplay tw m now sf cf s).2
      = (tickStatusRedraw sf (tickStatusFlag (tickContentFlags (tickMinute m s)))).2
          ++ (tickContentRedraw tw now cf
                (tickStatusRedraw sf (tickStatusFlag (tickContentFlags (tickMinute m s)))).1).2 :=
  rfl

/-- Any tick attempts a status transaction whenever the status dirty flag
is set on entry. -/
lemma updateDisplay_mem_status (tw : String → Nat) (m : Int) (now : Nat)
    (sf cf : Bool) (s : OledState) (h : s.status_bar_update_required = true) :
    Redraw.status ∈ (updateDisplay tw m now sf cf s).2 := by
  rw [updateDisplay_eq]
  have h1 := tickStatusFlag_sbr _ (tickContentFlags_sbr_aux m s h)
  rw [tickStatusRedraw_events sf _ h1]
  simp
where
  tickContentFlags_sbr_aux (m : Int) (s : OledState)
      (h : s.status_bar_update_required = true) :
      (tickContentFlags (tickMinute m s)).status_bar_update_required = true := by
    rw [(tickContentFlags_pres (tickMinute m s)).2.1]
    exact tickMinute_sbr m s h

/-- Any tick attempts a content transaction whenever the content dirty
flag is set on entry. -/
lemma updateDisplay_mem_content (tw : String → Nat) (m : Int) (now : Nat)
    (sf cf : Bool) (s : OledState) (h : s.content_update_required = true) :
    Redraw.content ∈ (updateDisplay tw m now sf cf s).2 := by
  rw [updateDisplay_eq]
  have h1 : (tickMinute m s).content_update_required = true := by
    rw [(tickMinute_fields m s).2.2.1]; exact h
  have h2 := tickContentFlags_cur _ h1
  have h3 : (tickStatusFlag (tickContentFlags (tickMinute m s))).content_update_required
      = true := by
    rw [(tickStatusFlag_fields _).2.2.1]; exact h2
  have h4 : ((tickStatusRedraw sf (tickStatusFlag (tickContentFlags (tickMinute m s)))).1).content_update_required = true := by
    rw [tickStatusRedraw_cur]; exact h3
  rw [tickContentRedraw_events tw now cf _ h4]
  simp

/-- A quiescent state (clean flags, drawn regions, current minute) passes
a successful tick unchanged with no redraw I/O. -/
lemma updateDisplay_quiescent (tw : String → Nat) (m : Int) (n : Nat) (s : OledState)
    (hmode : s.current_mode ≠ "scrolling")
    (hdrawn : s.current_mode = "centered" → s.content_drawn = true)
    (hmin : s.last_minute = m)
    (hsbr : s.status_bar_update_required = false)
    (hmur : s.motion_update_required = false)
    (hcur : s.content_update_required = false)
    (hsd : s.status_drawn = true) :
    (updateDisplay tw m n false false s).2 = [] := by
  have h1 : tickMinute m s = s := by
    rw [tickMinute, if_neg]
    simp [hmin]
  have h2 : tickContentFlags s = s := tickContentFlags_quiescent s hmode hdrawn
  have h3 : tickStatusFlag s = s := by
    rw [tickStatusFlag, if_neg]
    simp [hsd]
  have h4 : tickStatusRedraw false s = (s, []) := by
    rw [tickStatusRedraw, if_neg]
    simp [hsbr, hmur]
  have h5 : tickContentRedraw tw n false s = (s, []) := by
    rw [tickContentRedraw, if_neg]
    simp [hcur]
  have h4a : (tickStatusRedraw false s).1 = s := by rw [h4]
  have h4b : (tickStatusRedraw false s).2 = [] := by rw [h4]
  have h5b : (tickContentRedraw tw n false s).2 = [] := by rw [h5]
  rw [updateDisplay_snd, h1, h2, h3, h4a, h4b, h5b]
  rfl

/-- After one successful tick outside scrolling mode, the state is
quiescent: all dirty flags clear, regions drawn, minute stamped, mode
unchanged. -/
lemma updateDisplay_first_tick (tw : String → Nat) (m : Int) (n : Nat) (s : OledState)
    (hmode : s.current_mode ≠ "scrolling") :
    (updateDisplay tw m n false false s).1.current_mode = s.current_mode
    ∧ ((updateDisplay tw m n false false s).1.current_mode = "centered" →
        (updateDisplay tw m n false false s).1.content_drawn = true)
    ∧ (updateDisplay tw m n false false s).1.last_minute = m
    ∧ (updateDisplay tw m n false false s).1.status_bar_update_required = false
    ∧ (updateDisplay tw m n false false s).1.motion_update_required = false
    ∧ (updateDisplay tw m n false false s).1.content_update_required = false
    ∧ (updateDisplay tw m n false false s).1.status_drawn = true := by
  have p1 := tickMinute_fields m s
  have hmode1 : (tickMinute m s).current_mode ≠ "scrolling" := by
    rw [p1.2.1]; exact hmode
  have p2 := tickContentFlags_centered (tickMinute m s) hmode1
  have p2f := tickContentFlags_pres (tickMinute m s)
  have p3 := tickStatusFlag_fields (tickContentFlags (tickMinute m s))
  have p4 := tickStatusRedraw_ok (tickStatusFlag (tickContentFlags (tickMinute m s)))
  have p5 := tickContentRedraw_ok tw n
    (tickStatusRedraw false (tickStatusFlag (tickContentFlags (tickMinute m s)))).1
  have hmodeAll : (updateDisplay tw m n false false s).1.current_mode = s.current_mode := by
    rw [updateDisplay_fst, tickContentRedraw_mode, p4.2.2.1, p3.2.1, p2.1, p1.2.1]
  refine ⟨hmodeAll, ?_, ?_, ?_, ?_, ?_, ?_⟩
  · -- centered implies drawn
    intro hcent
    have hcent0 : s.current_mode = "centered" := by
      rw [← hmodeAll]; exact hcent
    have hdrawn2 : (tickContentFlags (tickMinute m s)).content_drawn = true := by
      apply p2.2
      rw [p2.1, p1.2.1]
      exact hcent0
    rw [updateDisplay_fst, p5.2.2.2.2.2, p4.2.2.2.2.1, p3.2.2.2.1, hdrawn2]
  · rw [updateDisplay_fst, p5.2.2.2.2.1, p4.2.2.2.2.2.2, p3.2.2.2.2.2, p2f.2.2.2.2, p1.1]
  · rw [updateDisplay_fst, p5.2.1, p4.1]
  · rw [updateDisplay_fst, p5.2.2.1, p4.2.1]
  · rw [updateDisplay_fst]
    exact p5.1
  · rw [updateDisplay_fst, p5.2.2.2.1, p4.2.2.2.2.2.1, p3.1]

/-- C4 amended: outside scrolling mode, two back-to-back successful ticks
with the same wall-clock minute and no intervening operation perform zero
redraw I/O calls on the second tick.  (In scrolling mode the tick re-marks
content dirty every time, so the original claim fails there.) -/
theorem C4_second_tick_silent (tw : String → Nat) (m : Int) (n1 n2 : Nat) (s : OledState)
    (h : s.current_mode ≠ "scrolling") :
    (updateDisplay tw m n2 false false (updateDisplay tw m n1 false false s).1).2 = [] := by
  obtain ⟨q1, q2, q3, q4, q5, q6, q7⟩ := updateDisplay_first_tick tw m n1 s h
  have hmode1 : (updateDisplay tw m n1 false false s).1.current_mode ≠ "scrolling" := by
    rw [q1]; exact h
  exact updateDisplay_quiescent tw m n2 _ hmode1 q2 q3 q4 q5 q6 q7

/-- C4 witness: the empty default display, two ticks at minute 0. -/
theorem C4_second_tick_silent_witness :
    (updateDisplay c4tw 0 0 false false (updateDisplay c4tw 0 0 false false oledInit).1).2
      = [] :=
  C4_second_tick_silent c4tw 0 0 0 oledInit (by decide)

/-- C7: a redraw I/O exception inside the tick does not abort the rest of
the tick — with the status redraw failing, the content redraw still runs
(and vice versa) — and the failed region's dirty flag stays set, so the
next tick attempts that region's redraw again. -/
theorem C7_tick_tolerates_redraw_failure (tw : String → Nat) (m : Int) (n : Nat)
    (s : OledState)
    (hs : s.status_bar_update_required = true)
    (hc : s.content_update_required = true) :
    (Redraw.content ∈ (updateDisplay tw m n true false s).2
      ∧ (updateDisplay tw m n true false s).1.status_bar_update_required = true
      ∧ Redraw.status ∈ (updateDisplay tw m n false false
          (updateDisplay tw m n true false s).1).2)
    ∧ (Redraw.status ∈ (updateDisplay tw m n false true s).2
      ∧ (updateDisplay tw m n false true s).1.content_update_required = true
      ∧ Redraw.content ∈ (updateDisplay tw m n false false
          (updateDisplay tw m n false true s).1).2) := by
  have p1 := tickMinute_fields m s
  have hs1 : (tickMinute m s).status_bar_update_required = true := tickMinute_sbr m s hs
  have hc1 : (tickMinute m s).content_update_required = true := by
    rw [p1.2.2.1]; exact hc
  have hs2 : (tickContentFlags (tickMinute m s)).status_bar_update_required = true := by
    rw [(tickContentFlags_pres _).2.1]; exact hs1
  have hc2 : (tickContentFlags (tickMinute m s)).content_update_required = true :=
    tickContentFlags_cur _ hc1
  have hs3 : (tickStatusFlag (tickContentFlags (tickMinute m s))).status_bar_update_required
      = true := tickStatusFlag_sbr _ hs2
  have hc3 : (tickStatusFlag (tickContentFlags (tickMinute m s))).content_update_required
      = true := by
    rw [(tickStatusFlag_fields _).2.2.1]; exact hc2
  constructor
  · -- status redraw fails
    have hfail := tickStatusRedraw_fail _ hs3
    have hsbr4 : (tickStatusRedraw true (tickStatusFlag (tickContentFlags
        (tickMinute m s)))).1.status_bar_update_required = true := by
      rw [hfail]; exact hs3
    have hkeep : (updateDisplay tw m n true false s).1.status_bar_update_required = true := by
      rw [updateDisplay_fst, tickContentRedraw_sbr]
      exact hsbr4
    exact ⟨updateDisplay_mem_content tw m n true false s hc, hkeep,
      updateDisplay_mem_status tw m n false false _ hkeep⟩
  · -- content redraw fails
    have hc4 : (tickStatusRedraw false (tickStatusFlag (tickContentFlags
        (tickMinute m s)))).1.content_update_required = true := by
      rw [tickStatusRedraw_cur]; exact hc3
    have hkeep : (updateDisplay tw m n false true s).1.content_update_required = true := by
      rw [updateDisplay_fst, tickContentRedraw_fail tw n _ hc4]
      exact hc4
    exact ⟨updateDisplay_mem_status tw m n false true s hs, hkeep,
      updateDisplay_mem_content tw m n false false _ hkeep⟩

/-- C7 witness: the initial state (both regions dirty) under each failure
mode. -/
theorem C7_tick_tolerates_redraw_failure_witness :
    (Redraw.content ∈ (updateDisplay c4tw 0 0 true false oledInit).2
      ∧ (updateDisplay c4tw 0 0 true false oledInit).1.status_bar_update_required = true
      ∧ Redraw.status ∈ (updateDisplay c4tw 0 0 false false
          (updateDisplay c4tw 0 0 true false oledInit).1).2)
    ∧ (Redraw.status ∈ (updateDisplay c4tw 0 0 false true oledInit).2
      ∧ (updateDisplay c4tw 0 0 false true oledInit).1.content_update_required = true
      ∧ Redraw.content ∈ (updateDisplay c4tw 0 0 false false
          (updateDisplay c4tw 0 0 false true oledInit).1).2) :=
  C7_tick_tolerates_redraw_failure c4tw 0 0 oledInit (by decide) (by decide)

/-! ### Overlay-timer invariant (C3) -/

/-- Timer-system invariant: at most one live timer exists, and any live
timer is exactly the armed overlay timer (with an identifier the generator
has already produced). -/
def timerInv (σ : Sys) : Prop :=
  σ.2.live.length ≤ 1
  ∧ ∀ id ∈ σ.2.live, σ.1.temp_message_thread = some id ∧ id < σ.2.nextId

/-- Under the invariant, a member of the live list is the whole list. -/
lemma live_eq_of_mem (σ : Sys) (h : timerInv σ) (id : Nat)
    (hin : id ∈ σ.2.live) : σ.2.live = [id] := by
  obtain ⟨hlen, hall⟩ := h
  cases hl : σ.2.live with
  | nil => rw [hl] at hin; simp at hin
  | cons a as =>
      rw [hl] at hlen
      have has : as = [] := by
        cases as with
        | nil => rfl
        | cons b bs => simp only [List.length_cons] at hlen; omega
      subst has
      rw [hl] at hin
      simp only [List.mem_singleton] at hin
      rw [hin]

/-- Under the invariant, no armed overlay means no live timer. -/
lemma live_nil_of_none (σ : Sys) (h : timerInv σ)
    (htm : σ.1.temp_message_thread = none) : σ.2.live = [] := by
  cases hl : σ.2.live with
  | nil => rfl
  | cons a as =>
      have h2 := (h.2 a (by rw [hl]; exact List.mem_cons_self a as)).1
      rw [htm] at h2
      exact Option.noConfusion h2

/-- Under the invariant, if the armed timer is not live, nothing is. -/
lemma live_nil_of_not_mem (σ : Sys) (h : timerInv σ) (tid : Nat)
    (htm : σ.1.temp_message_thread = some tid) (hnin : tid ∉ σ.2.live) :
    σ.2.live = [] := by
  cases hl : σ.2.live with
  | nil => rfl
  | cons a as =>
      have h2 := (h.2 a (by rw [hl]; exact List.mem_cons_self a as)).1
      rw [htm] at h2
      have ha : tid = a := Option.some_inj.mp h2
      subst ha
      exact absurd (by rw [hl]; exact List.mem_cons_self tid as) hnin

/-- `_cancel_temporary_message` empties the live-timer set, keeps the
identifier generator, and does not touch the armed-timer field. -/
lemma cancelTemporaryMessage_fields (σ : Sys) (h : timerInv σ) :
    (cancelTemporaryMessage σ).2.live = []
    ∧ (cancelTemporaryMessage σ).2.nextId = σ.2.nextId
    ∧ (cancelTemporaryMessage σ).1.temp_message_thread = σ.1.temp_message_thread := by
  rcases htm : σ.1.temp_message_thread with _ | tid
  · have hl := live_nil_of_none σ h htm
    simp [cancelTemporaryMessage, htm, hl]
  · by_cases hin : tid ∈ σ.2.live
    · have hl := live_eq_of_mem σ h tid hin
      simp [cancelTemporaryMessage, htm, hin, hl]
    · have hl := live_nil_of_not_mem σ h tid htm hin
      simp [cancelTemporaryMessage, htm, hin, hl]

/-- The invariant only looks at the armed-timer field and the timer
system, so it transfers across any state change preserving those. -/
lemma timerInv_of_eq (σ σ' : Sys) (h : timerInv σ)
    (ht : σ'.1.temp_message_thread = σ.1.temp_message_thread)
    (hl : σ'.2 = σ.2) : timerInv σ' := by
  rw [timerInv, hl, ht]
  exact h

/-- `_set_temporary_message` arms exactly one fresh live timer. -/
lemma setTemporaryMessage_fields (d : Nat) (σ : Sys) :
    (setTemporaryMessage d σ).2.live
        = (cancelTemporaryMessage σ).2.nextId :: (cancelTemporaryMessage σ).2.live
    ∧ (setTemporaryMessage d σ).1.temp_message_thread
        = some (cancelTemporaryMessage σ).2.nextId
    ∧ (setTemporaryMessage d σ).2.nextId = (cancelTemporaryMessage σ).2.nextId + 1 :=
  ⟨rfl, rfl, rfl⟩

/-- `_set_temporary_message` preserves the invariant: it cancels the old
timer first, so afterwards the fresh timer is the only live one. -/
lemma setTemporaryMessage_inv (d : Nat) (σ : Sys) (h : timerInv σ) :
    timerInv (setTemporaryMessage d σ) := by
  obtain ⟨hc1, hc2, _⟩ := cancelTemporaryMessage_fields σ h
  obtain ⟨hf1, hf2, hf3⟩ := setTemporaryMessage_fields d σ
  constructor
  · rw [hf1, hc1]
    simp
  · intro id hid
    rw [hf1, hc1] at hid
    simp only [List.mem_singleton] at hid
    subst hid
    exact ⟨hf2, by rw [hf3]; omega⟩

/-- `_cancel_temporary_message` preserves the invariant (trivially: it
leaves no live timer). -/
lemma cancelTemporaryMessage_inv (σ : Sys) (h : timerInv σ) :
    timerInv (cancelTemporaryMessage σ) := by
  obtain ⟨hc1, _, _⟩ := cancelTemporaryMessage_fields σ h
  rw [timerInv, hc1]
  exact ⟨by simp, by simp⟩

/-- `show_centered_text` preserves the invariant. -/
lemma showCenteredText_inv (l1 l2 : String) (dur : Option Nat) (σ : Sys)
    (h : timerInv σ) : timerInv (showCenteredText l1 l2 dur σ) := by
  rcases dur with _ | d
  · exact timerInv_of_eq _ _ h rfl rfl
  · rw [showCenteredText]
    split_ifs with hd
    · exact setTemporaryMessage_inv d _ (timerInv_of_eq _ _ h rfl rfl)
    · exact timerInv_of_eq _ _ h rfl rfl

/-- `show_scrolling_text` preserves the invariant. -/
lemma showScrollingText_inv (t : String) (dur : Option Nat) (σ : Sys)
    (h : timerInv σ) : timerInv (showScrollingText t dur σ) := by
  rcases dur with _ | d
  · exact timerInv_of_eq _ _ h rfl rfl
  · rw [showScrollingText]
    split_ifs with hd
    · exact setTemporaryMessage_inv d _ (timerInv_of_eq _ _ h rfl rfl)
    · exact timerInv_of_eq _ _ h rfl rfl

/-- `clear_display` preserves the invariant. -/
lemma clearDisplay_inv (σ : Sys) (h : timerInv σ) :
    timerInv (clearDisplay σ) :=
  cancelTemporaryMessage_inv _ (timerInv_of_eq _ _ h rfl rfl)

/-- `show_status` does not touch the armed timer. -/
lemma showStatus_temp (a : Option Bool) (t : Option Nat) (s : OledState) :
    (showStatus a t s).temp_message_thread = s.temp_message_thread := by
  cases a <;> cases t <;> simp [showStatus]

/-- Firing a timer preserves the invariant: a live firing consumes the
only live timer; any other firing is a no-op. -/
lemma fireTimer_inv (id : Nat) (σ : Sys) (h : timerInv σ) :
    timerInv (fireTimer id σ) := by
  rw [fireTimer]
  split_ifs with hin
  · have hl := live_eq_of_mem σ h id hin
    constructor
    · simp [hl]
    · intro j hj
      rw [hl] at hj
      simp at hj
  · exact h

/-- The scroll animator does not touch the armed timer. -/
lemma updateContentArea_temp (tw : String → Nat) (now : Nat) (s : OledState) :
    (updateContentArea tw now s).temp_message_thread = s.temp_message_thread := by
  simp only [updateContentArea]
  split_ifs <;> rfl

/-- The clock block does not touch the armed timer. -/
lemma tickMinute_temp (m : Int) (s : OledState) :
    (tickMinute m s).temp_message_thread = s.temp_message_thread := by
  rw [tickMinute]; split_ifs <;> rfl

/-- The content-flag block does not touch the armed timer. -/
lemma tickContentFlags_temp (s : OledState) :
    (tickContentFlags s).temp_message_thread = s.temp_message_thread := by
  rw [tickContentFlags]; split_ifs <;> rfl

/-- The status-flag block does not touch the armed timer. -/
lemma tickStatusFlag_temp (s : OledState) :
    (tickStatusFlag s).temp_message_thread = s.temp_message_thread := by
  rw [tickStatusFlag]; split_ifs <;> rfl

/-- The status redraw does not touch the armed timer. -/
lemma tickStatusRedraw_temp (sf : Bool) (s : OledState) :
    (tickStatusRedraw sf s).1.temp_message_thread = s.temp_message_thread := by
  cases sf <;> cases hs : s.status_bar_update_required <;>
    cases hm : s.motion_update_required <;> simp [tickStatusRedraw, hs, hm]

/-- The content redraw does not touch the armed timer. -/
lemma tickContentRedraw_temp (tw : String → Nat) (now : Nat) (cf : Bool) (s : OledState) :
    (tickContentRedraw tw now cf s).1.temp_message_thread = s.temp_message_thread := by
  cases cf <;> cases hc : s.content_update_required <;>
    simp [tickContentRedraw, hc, updateContentArea_temp]

/-- A whole tick does not touch the armed timer. -/
lemma updateDisplay_temp (tw : String → Nat) (m : Int) (now : Nat)
    (sf cf : Bool) (s : OledState) :
    (updateDisplay tw m now sf cf s).1.temp_message_thread = s.temp_message_thread := by
  rw [updateDisplay_fst, tickContentRedraw_temp, tickStatusRedraw_temp,
    tickStatusFlag_temp, tickContentFlags_temp, tickMinute_temp]

/-- Every operation preserves the timer invariant. -/
lemma stepOp_inv (op : Op) (σ : Sys) (h : timerInv σ) : timerInv (stepOp op σ) := by
  cases op with
  | showCentered l1 l2 d => exact showCenteredText_inv l1 l2 d σ h
  | showScrolling t d => exact showScrollingText_inv t d σ h
  | status a t => exact timerInv_of_eq _ _ h (showStatus_temp a t σ.1) rfl
  | clear => exact clearDisplay_inv σ h
  | fire id => exact fireTimer_inv id σ h
  | tick tw m now sf cf =>
      exact timerInv_of_eq _ _ h (updateDisplay_temp tw m now sf cf σ.1) rfl

/-- C3: from the initial state, after any sequence of operations at most
one overlay timer is live, any live timer is the armed one with a fresh
identifier, and firing any timer that is not live (in particular any
superseded, cancelled or already-fired timer) is a no-op, so a superseded
timer's reversion can never take effect. -/
theorem C3_at_most_one_live_timer (ops : List Op) :
    timerInv (runOps ops sysInit)
    ∧ ∀ id, id ∉ (runOps ops sysInit).2.live →
        fireTimer id (runOps ops sysInit) = runOps ops sysInit := by
  have hinv : ∀ (l : List Op) (σ : Sys), timerInv σ → timerInv (runOps l σ) := by
    intro l
    induction l with
    | nil => intro σ h; exact h
    | cons op rest ih => intro σ h; exact ih _ (stepOp_inv op σ h)
  refine ⟨hinv ops sysInit ⟨by simp [sysInit, timerInit], ?_⟩, ?_⟩
  · intro id hid
    simp [sysInit, timerInit] at hid
  · intro id hid
    rw [fireTimer, if_neg hid]

/-- C3 witness: arming an overlay leaves one live timer, and firing a
different identifier does nothing. -/
theorem C3_at_most_one_live_timer_witness :
    timerInv (runOps [Op.showCentered "a" "b" (some 5)] sysInit)
    ∧ fireTimer 7 (runOps [Op.showCentered "a" "b" (some 5)] sysInit)
        = runOps [Op.showCentered "a" "b" (some 5)] sysInit :=
  ⟨(C3_at_most_one_live_timer [Op.showCentered "a" "b" (some 5)]).1,
   (C3_at_most_one_live_timer [Op.showCentered "a" "b" (some 5)]).2 7 (by decide)⟩

/-! ### Quadrature decoder counting (C2) -/

/-- A sequence follows the 4-state Gray-code transition table when each
event is adjacent (one quarter step in either direction) or the skip
transition `11 → 00`. -/
def followsTable : Phase → List Phase → Bool
  | _, [] => true
  | cur, n :: rest =>
      (n = cwNext cur || n = ccwNext cur || (cur = Phase.p11 && n = Phase.p00))
        && followsTable n rest

/-- With a direction hypothesis `d` held, one monotone step moves the
phase and bumps the count exactly on arrival at the rest state. -/
lemma transitionOccurred_mono (d : Dir) (p n : Phase) (v : Int)
    (hstep : n = dirNext d p ∨ (p = Phase.p11 ∧ n = Phase.p00)) :
    transitionOccurred ⟨p, some d, v⟩ n
      = ⟨n, some d, if n = Phase.p00 then v + dirSign d else v⟩ := by
  rcases hstep with h | ⟨hp, hn⟩
  · subst h
    cases d <;> cases p <;>
      simp [transitionOccurred, dirNext, cwNext, ccwNext, dirSign, sub_eq_add_neg]
  · subst hp; subst hn
    cases d <;> simp [transitionOccurred, dirSign, sub_eq_add_neg]

/-- Running the decoder over a monotone sequence with the hypothesis `d`
already established counts one detent per arrival at the rest state. -/
lemma runEncoder_mono (d : Dir) :
    ∀ (seq : List Phase) (p : Phase) (v : Int),
      isMonotone d p seq = true →
      runEncoder ⟨p, some d, v⟩ seq
        = ⟨endPhase p seq, some d,
           v + dirSign d * (List.count Phase.p00 seq : Int)⟩ := by
  intro seq
  induction seq with
  | nil =>
      intro p v _
      simp [runEncoder, endPhase]
  | cons n rest ih =>
      intro p v hm
      rw [isMonotone, Bool.and_eq_true] at hm
      obtain ⟨h1, h2⟩ := hm
      have hstep : n = dirNext d p ∨ (p = Phase.p11 ∧ n = Phase.p00) := by
        simpa using h1
      have hrun : runEncoder ⟨p, some d, v⟩ (n :: rest)
          = runEncoder (transitionOccurred ⟨p, some d, v⟩ n) rest := rfl
      rw [hrun, transitionOccurred_mono d p n v hstep, ih n _ h2]
      have hend : endPhase n rest = endPhase p (n :: rest) := rfl
      rw [hend]
      by_cases hn : n = Phase.p00
      · subst hn
        simp [List.count_cons]
        ring
      · simp [List.count_cons, hn]

/-- For a monotone sequence ending at the rest state, the quarter-step
total closes out in full revolutions: one per visit to the rest state. -/
lemma quarters_count (d : Dir) :
    ∀ (seq : List Phase) (p : Phase),
      isMonotone d p seq = true → endPhase p seq = Phase.p00 →
      posIdx d p + quarters d p seq = 4 * List.count Phase.p00 seq := by
  intro seq
  induction seq with
  | nil =>
      intro p _ hend
      rw [endPhase] at hend
      subst hend
      cases d <;> simp [posIdx, quarters]
  | cons n rest ih =>
      intro p hm hend
      rw [isMonotone, Bool.and_eq_true] at hm
      obtain ⟨h1, h2⟩ := hm
      have hstep : n = dirNext d p ∨ (p = Phase.p11 ∧ n = Phase.p00) := by
        simpa using h1
      rw [endPhase] at hend
      have ihn := ih n h2 hend
      have hstepval : posIdx d p + (if n = dirNext d p then 1 else 2)
          = if n = Phase.p00 then 4 else posIdx d n := by
        rcases hstep with h | ⟨hp, hn⟩
        · subst h
          cases d <;> cases p <;> simp [dirNext, cwNext, ccwNext, posIdx]
        · subst hp; subst hn
          cases d <;> simp [dirNext, cwNext, ccwNext, posIdx]
      rw [quarters]
      by_cases hn : n = Phase.p00
      · rw [if_pos hn] at hstepval
        subst hn
        have hidx : posIdx d Phase.p00 = 0 := by cases d <;> rfl
        rw [hidx] at ihn
        simp only [List.count_cons_self]
        omega
      · rw [if_neg hn] at hstepval
        have hcnt : List.count Phase.p00 (n :: rest) = List.count Phase.p00 rest := by
          simp [List.count_cons, hn]
        rw [hcnt]
        omega

/-- C2 amended: for every phase-edge sequence that is monotone in a
direction `d` (each event one quarter step in direction `d`, or the
`11 → 00` skip) and returns to the rest state, the decoder's net count
equals the implied net rotation: value · 4 = sign(d) · quarter steps.
Sequences that reverse direction mid-cycle can emit a spurious detent
(see the counterexample), so the original unrestricted claim fails. -/
theorem C2_monotone_counts_detents (d : Dir) (seq : List Phase)
    (hm : isMonotone d Phase.p00 seq = true)
    (hend : endPhase Phase.p00 seq = Phase.p00) :
    (runEncoder encInit seq).value * 4
      = dirSign d * (quarters d Phase.p00 seq : Int) := by
  have hq := quarters_count d seq Phase.p00 hm hend
  cases seq with
  | nil => cases d <;> simp [runEncoder, encInit, quarters]
  | cons n rest =>
      rw [isMonotone, Bool.and_eq_true] at hm
      obtain ⟨h1, h2⟩ := hm
      have hstep : n = dirNext d Phase.p00 := by
        have h1p : n = dirNext d Phase.p00 ∨ (Phase.p00 = Phase.p11 ∧ n = Phase.p00) := by
          simpa using h1
        rcases h1p with h | ⟨hp, _⟩
        · exact h
        · exact Phase.noConfusion hp
      have hfirst : transitionOccurred encInit n = ⟨n, some d, 0⟩ := by
        subst hstep
        cases d <;> simp [transitionOccurred, encInit, dirNext, cwNext, ccwNext]
      have hrun : runEncoder encInit (n :: rest)
          = runEncoder ⟨n, some d, 0⟩ rest := by
        show runEncoder (transitionOccurred encInit n) rest = _
        rw [hfirst]
      rw [hrun, runEncoder_mono d rest n 0 h2]
      have hn0 : n ≠ Phase.p00 := by
        subst hstep
        cases d <;> simp [dirNext, cwNext, ccwNext]
      have hcnt : List.count Phase.p00 (n :: rest) = List.count Phase.p00 rest := by
        simp [List.count_cons, hn0]
      have hidx : posIdx d Phase.p00 = 0 := by cases d <;> rfl
      rw [hcnt, hidx] at hq
      dsimp only
      rw [zero_add]
      have hq' : quarters d Phase.p00 (n :: rest) = 4 * List.count Phase.p00 rest := by
        omega
      have hqz : (quarters d Phase.p00 (n :: rest) : Int)
          = 4 * (List.count Phase.p00 rest : Int) := by
        exact_mod_cast hq'
      rw [hqz]
      ring

/-- C2 witness: one full clockwise cycle. -/
theorem C2_monotone_counts_detents_witness :
    (runEncoder encInit [Phase.p01, Phase.p11, Phase.p10, Phase.p00]).value * 4
      = dirSign Dir.R
          * (quarters Dir.R Phase.p00 [Phase.p01, Phase.p11, Phase.p10, Phase.p00] : Int) :=
  C2_monotone_counts_detents Dir.R [Phase.p01, Phase.p11, Phase.p10, Phase.p00]
    (by decide) (by decide)

/-- C2 counterexample: the wiggle `00→01→11→01→00` follows the transition
table, implies zero net rotation (quarter steps +1, +1, −1, −1), yet the
decoder emits one counter-clockwise detent (`value = −1`): the direction
hypothesis set by `11→01` passes the guard at `01→00` even though the
forward half-cycle was undone. -/
theorem C2_counterexample :
    followsTable Phase.p00 [Phase.p01, Phase.p11, Phase.p01, Phase.p00] = true
    ∧ netQuarterSteps Phase.p00 [Phase.p01, Phase.p11, Phase.p01, Phase.p00] = 0
    ∧ (runEncoder encInit [Phase.p01, Phase.p11, Phase.p01, Phase.p00]).value = -1 := by
  decide

end Smartchime
